import Mathlib

/-!
Verification of the discord.js-cluster worker-pool supervisor.

Shallow embedding of the repository's core data model and operations:
`Util.chunk` (src/util/Util.js), `ClusterManager.spawn` / `_performOnClusters`
(src/sharding/ClusterManager.js), `Cluster.spawn` / `kill` / `eval` /
`fetchClientValue` / `_handleExit` (src/sharding/Cluster.js) and
`ClusterClientUtil.clusterIdForGuildId` (src/sharding/ClusterClientUtil.js).

JavaScript numbers are modelled as `Nat` (all quantities in scope are
non-negative integers); the few places where a JavaScript dynamic-typing
effect matters (property access on `undefined`, comparison with `undefined`)
are modelled explicitly with a small value universe / `Option`.
-/

namespace DJSCluster

instance instDecEqExcept {ε α : Type} [DecidableEq ε] [DecidableEq α] :
    DecidableEq (Except ε α) := fun x y =>
  match x, y with
  | .ok a, .ok b =>
    if h : a = b then .isTrue (by rw [h]) else .isFalse (by intro hh; cases hh; exact h rfl)
  | .error a, .error b =>
    if h : a = b then .isTrue (by rw [h]) else .isFalse (by intro hh; cases hh; exact h rfl)
  | .ok _, .error _ => .isFalse (by intro hh; cases hh)
  | .error _, .ok _ => .isFalse (by intro hh; cases hh)

/-! ## Util.chunk (src/util/Util.js)

```js
static chunk(arr, size) {
  let result = [];
  let dom = arr.length / size;
  while (arr.length > 0) {
    result.push(arr.splice(0, Math.ceil(dom)));
  }
  return result;
}
```

`dom` is computed ONCE before the loop, so every chunk has the fixed length
`Math.ceil(arr.length / size)` (except a shorter final chunk).
-/

/-- Ceiling division `Math.ceil(a / b)` for naturals (`b > 0`); the source never
calls it with `size = 0`. -/
def ceilDivJs (a b : Nat) : Nat := (a + b - 1) / b

/-- The `while (arr.length > 0)` loop of `Util.chunk`: repeatedly splice off the
first `c` elements. `fuel` bounds the iteration count (the JS loop terminates
whenever `c ≥ 1`, and `fuel = arr.length` iterations always suffice then). -/
def chunkGo {α : Type} (fuel c : Nat) (arr : List α) : List (List α) :=
  match fuel, arr with
  | _, [] => []
  | 0, _ :: _ => []
  | f + 1, x :: xs => (x :: xs).take c :: chunkGo f c ((x :: xs).drop c)

/-- Embedding of `Util.chunk(arr, size)`: the fixed splice length is
`Math.ceil(arr.length / size)`, computed once before the loop. -/
def chunk {α : Type} (arr : List α) (size : Nat) : List (List α) :=
  chunkGo arr.length (ceilDivJs arr.length size) arr

theorem chunkGo_join {α : Type} (c : Nat) (hc : 1 ≤ c) :
    ∀ (fuel : Nat) (arr : List α), arr.length ≤ fuel → (chunkGo fuel c arr).flatten = arr := by
  intro fuel
  induction fuel with
  | zero =>
    intro arr h
    have : arr = [] := List.eq_nil_of_length_eq_zero (Nat.le_zero.mp h)
    subst this
    simp [chunkGo]
  | succ f ih =>
    intro arr h
    cases arr with
    | nil => simp [chunkGo]
    | cons x xs =>
      have hlen : ((x :: xs).drop c).length ≤ f := by
        simp only [List.length_drop, List.length_cons] at *
        omega
      simp only [chunkGo, List.flatten_cons, ih _ hlen, List.take_append_drop]

theorem chunkGo_ne_nil {α : Type} (c : Nat) (hc : 1 ≤ c) :
    ∀ (fuel : Nat) (arr : List α), ∀ l ∈ chunkGo fuel c arr, l ≠ [] := by
  intro fuel
  induction fuel with
  | zero =>
    intro arr l hl
    cases arr <;> simp [chunkGo] at hl
  | succ f ih =>
    intro arr l hl
    cases arr with
    | nil => simp [chunkGo] at hl
    | cons x xs =>
      simp only [chunkGo, List.mem_cons] at hl
      rcases hl with rfl | hl
      · obtain ⟨c', rfl⟩ := Nat.exists_eq_add_of_le hc
        simp [List.take_cons]
      · exact ih _ _ hl

theorem chunkGo_mem_length_le {α : Type} (c : Nat) :
    ∀ (fuel : Nat) (arr : List α), ∀ l ∈ chunkGo fuel c arr, l.length ≤ c := by
  intro fuel
  induction fuel with
  | zero =>
    intro arr l hl
    cases arr <;> simp [chunkGo] at hl
  | succ f ih =>
    intro arr l hl
    cases arr with
    | nil => simp [chunkGo] at hl
    | cons x xs =>
      simp only [chunkGo, List.mem_cons] at hl
      rcases hl with rfl | hl
      · simp only [List.length_take]
        omega
      · exact ih _ _ hl

theorem ceilDivJs_step (n c : Nat) (hc : 1 ≤ c) (hn : 1 ≤ n) :
    ceilDivJs n c = ceilDivJs (n - c) c + 1 := by
  unfold ceilDivJs
  have hL : n + c - 1 = (n - 1) + c := by omega
  rw [hL, Nat.add_div_right _ (by omega : 0 < c)]
  rcases le_or_lt n c with h | h
  · have h0 : n - c = 0 := by omega
    rw [h0]
    have h1 : (n - 1) / c = 0 := Nat.div_eq_of_lt (by omega)
    have h2 : (0 + c - 1) / c = 0 := Nat.div_eq_of_lt (by omega)
    omega
  · have hR : n - c + c - 1 = (n - 1 - c) + c := by omega
    rw [hR, Nat.add_div_right _ (by omega : 0 < c)]
    conv_lhs => rw [show n - 1 = (n - 1 - c) + c by omega]
    rw [Nat.add_div_right _ (by omega : 0 < c)]

theorem chunkGo_length {α : Type} (c : Nat) (hc : 1 ≤ c) :
    ∀ (fuel : Nat) (arr : List α), arr.length ≤ fuel →
      (chunkGo fuel c arr).length = ceilDivJs arr.length c := by
  intro fuel
  induction fuel with
  | zero =>
    intro arr h
    have : arr = [] := List.eq_nil_of_length_eq_zero (Nat.le_zero.mp h)
    subst this
    simp [chunkGo, ceilDivJs, Nat.div_eq_of_lt (by omega : c - 1 < c)]
  | succ f ih =>
    intro arr h
    cases arr with
    | nil => simp [chunkGo, ceilDivJs, Nat.div_eq_of_lt (by omega : c - 1 < c)]
    | cons x xs =>
      have hlen : ((x :: xs).drop c).length ≤ f := by
        simp only [List.length_drop, List.length_cons] at *
        omega
      have hn : 1 ≤ (x :: xs).length := by simp
      simp only [chunkGo, List.length_cons, ih _ hlen, List.length_drop]
      rw [ceilDivJs_step (xs.length + 1) c hc (by omega)]

theorem le_mul_ceilDivJs (s w : Nat) (hw : 1 ≤ w) : s ≤ w * ceilDivJs s w := by
  unfold ceilDivJs
  have h1 := Nat.div_add_mod (s + w - 1) w
  have h2 : (s + w - 1) % w < w := Nat.mod_lt _ (by omega)
  omega

theorem one_le_ceilDivJs (s w : Nat) (hw : 1 ≤ w) (hs : 1 ≤ s) : 1 ≤ ceilDivJs s w := by
  unfold ceilDivJs
  rw [Nat.one_le_div_iff (by omega)]
  omega

theorem ceilDivJs_le_of_le_mul (s c w : Nat) (hc : 1 ≤ c) (h : s ≤ w * c) :
    ceilDivJs s c ≤ w := by
  unfold ceilDivJs
  have h1 : s + c - 1 ≤ (c - 1) + w * c := by omega
  calc (s + c - 1) / c ≤ ((c - 1) + w * c) / c := Nat.div_le_div_right h1
    _ = (c - 1) / c + w := Nat.add_mul_div_right _ _ (by omega)
    _ = w := by simp [Nat.div_eq_of_lt (by omega : c - 1 < c)]

/-! ## A fragment of the JavaScript dynamic value universe

`ClusterManager.spawn` computes
`this.clusters.reduce(cluster => cluster.shards.length, 0)`.
`Collection#reduce` calls the callback as `fn(accumulator, value, key, coll)`,
so the parameter named `cluster` is bound to the numeric accumulator.  Property
access on a number yields `undefined`, and property access on `undefined`
throws a `TypeError`; these dynamic effects are modelled explicitly. -/

inductive JsVal : Type
  | num (n : Nat)
  | undef
deriving DecidableEq

inductive JsErr : Type
  | typeError
deriving DecidableEq

/-- JavaScript property access `v.prop`: reading any property of a number (a
primitive with no such property) yields `undefined`; reading a property of
`undefined` throws a `TypeError`. -/
def jsProp : JsVal → String → Except JsErr JsVal
  | .num _, _ => .ok .undef
  | .undef, _ => .error .typeError

/-- JavaScript `x >= y` where `x` may be `undefined` (`undefined >= y` is
`false`). -/
def jsGe (x : JsVal) (y : Nat) : Bool :=
  match x with
  | .num n => y ≤ n
  | .undef => false

/-- JavaScript `a[i] < y` where the indexing may be out of bounds
(`undefined < y` is `false`). -/
def jsLtUndef (x : Option Nat) (y : Nat) : Bool :=
  match x with
  | some v => v < y
  | none => false

/-- JavaScript `a[i] > y` where the indexing may be out of bounds
(`undefined > y` is `false`). -/
def jsGtUndef (x : Option Nat) (y : Nat) : Bool :=
  match x with
  | some v => y < v
  | none => false

/-- JavaScript `Array#findIndex`, with `none` standing for the `-1` result. -/
def findIndexJs {α : Type} (p : α → Bool) : List α → Option Nat
  | [] => none
  | x :: xs => if p x then some 0 else (findIndexJs p xs).map (· + 1)

theorem findIndexJs_eq_none {α : Type} (p : α → Bool) :
    ∀ (l : List α), (∀ a ∈ l, p a = false) → findIndexJs p l = none := by
  intro l
  induction l with
  | nil => intro _; rfl
  | cons x xs ih =>
    intro h
    simp only [findIndexJs, h x (by simp), if_false, Bool.false_eq_true]
    rw [ih fun a ha => h a (by simp [ha])]
    rfl

/-! ## ClusterManager (src/sharding/ClusterManager.js) -/

inductive MgrError : Type
  | typeError                        -- TypeError escaping the reduce callback
  | invalidShards                    -- RangeError CLIENT_INVALID_OPTION (shards)
  | invalidClusters                  -- RangeError CLIENT_INVALID_OPTION (clusters)
  | shardingAlreadySpawned (n : Nat) -- Error SHARDING_ALREADY_SPAWNED
  | clusterAlreadySpawned (n : Nat)  -- Error CLUSTER_ALREADY_SPAWNED
  | noClusters                       -- Error CLUSTER_NO_CLUSTERS
  | clusterNotFound (id : Nat)       -- Error CLUSTER_CLUSTER_NOT_FOUND
  | inProcess                        -- Error CLUSTER_IN_PROCESS
deriving DecidableEq

/-- The callback `cluster => cluster.shards.length` of `ClusterManager.spawn`'s
shard-size reduce, applied to the accumulator (named `cluster` in the source)
as `Collection#reduce` does. -/
def reduceShardsFn (acc : JsVal) (_cluster : List Nat) : Except JsErr JsVal := do
  jsProp (← jsProp acc "shards") "length"

/-- Value of `this.clusters.reduce(cluster => cluster.shards.length, 0)` over the
spawned clusters' shard lists (in insertion order). -/
def collectionReduceShards (clusters : List (List Nat)) : Except JsErr JsVal :=
  clusters.foldlM reduceShardsFn (JsVal.num 0)

/-- The shard-partitioning portion of `ClusterManager.spawn` (lines 269-350),
for numeric `shards`/`clusters` arguments, starting from a manager whose
spawned clusters hold the shard lists `existing` (empty on the first call,
when `shardList`/`totalShards` are still `'auto'` and `shardList` is set to
`[...Array(shards).keys()]`).  Returns the `Object.entries(shardChunk)`
assignment `clusterId ↦ shard list` that the spawn loop iterates over. -/
def spawnPartition (existing : List (List Nat)) (shards clusters : Nat) :
    Except MgrError (List (Nat × List Nat)) :=
  -- if (shards < 1) throw new RangeError('CLIENT_INVALID_OPTION', ...)
  if shards < 1 then .error MgrError.invalidShards
  else
    -- const shardSize = this.clusters.reduce(cluster => cluster.shards.length, 0);
    match collectionReduceShards existing with
    | .error .typeError => .error MgrError.typeError
    | .ok shardSize =>
      -- if (shardSize >= shards) throw new Error('SHARDING_ALREADY_SPAWNED', shards);
      if jsGe shardSize shards then .error (MgrError.shardingAlreadySpawned shards)
      else
        -- this.shardList = [...Array(shards).keys()];
        let shardList := List.range shards
        -- if (clusters < 1) throw new RangeError('CLIENT_INVALID_OPTION', ...)
        if clusters < 1 then .error MgrError.invalidClusters
        else
          -- const shardChunk = Util.chunk(this.shardList, clusters);
          let shardChunk := chunk shardList clusters
          -- if (clusters > shardChunk.length) clusters = shardChunk.length;
          let clusters := if shardChunk.length < clusters then shardChunk.length else clusters
          -- if (this.clusters.size >= clusters) throw Error('CLUSTER_ALREADY_SPAWNED', ...);
          if clusters ≤ existing.length then .error (MgrError.clusterAlreadySpawned existing.length)
          -- for (const [clusterId, shardList] of Object.entries(shardChunk)) createCluster(...)
          else .ok shardChunk.enum

/-- The dispatch decision taken by `ClusterManager._performOnClusters`. -/
inductive Dispatch : Type
  | delegate (id : Nat)       -- this.clusters.get(cluster)[method](...args)
  | fanout (ids : List Nat)   -- Promise.all over every cluster
deriving DecidableEq

/-- Embedding of `ClusterManager._performOnClusters(method, args, cluster)`,
abstracted over the method actually invoked: `ids` are the keys of
`this.clusters` in insertion order, `clusterListLen` is
`this.clusterList.length`, `target` is the `cluster` argument (`none` when
not a number). -/
def performOnClusters (ids : List Nat) (clusterListLen : Nat) (target : Option Nat) :
    Except MgrError Dispatch :=
  -- if (this.clusters.size === 0) return Promise.reject(new Error('CLUSTER_NO_CLUSTERS'));
  if ids.length = 0 then .error MgrError.noClusters
  else
    match target with
    | some c =>
      -- if (this.clusters.has(cluster)) return this.clusters.get(cluster)[method](...args);
      -- return Promise.reject(new Error('CLUSTER_CLUSTER_NOT_FOUND', cluster));
      if c ∈ ids then .ok (Dispatch.delegate c) else .error (MgrError.clusterNotFound c)
    | none =>
      -- if (this.clusters.size !== this.clusterList.length) ... CLUSTER_IN_PROCESS
      if ids.length ≠ clusterListLen then .error MgrError.inProcess
      else .ok (Dispatch.fanout ids)

/-! ## ClusterClientUtil.clusterIdForGuildId (src/sharding/ClusterClientUtil.js)

```js
static clusterIdForGuildId(guildId, clusterCount, shardCount) {
  const shard = Number(BigInt(guildId) >> 22n) % shardCount;
  if (shard < 0) throw new Error('CLUSTER_SHARD_MISCALCULATION', ...);
  const cluster = Util.chunk(Array(shardCount).fill().map((_, i) => i), clusterCount)
    .findIndex(shardList => shardList[0] < shard && shardList[shardList.length] > shard);
  if (cluster < 0) throw new Error('CLUSTER_CLUSTER_MISCALCULATION', ...);
  return cluster;
}
```
-/

inductive ClientUtilError : Type
  | shardMiscalculation    -- Error CLUSTER_SHARD_MISCALCULATION
  | clusterMiscalculation  -- Error CLUSTER_CLUSTER_MISCALCULATION
deriving DecidableEq

/-- Embedding of `ClusterClientUtil.clusterIdForGuildId` for a non-negative snowflake
`guildId`.  `shard` is never negative in the `Nat` embedding, matching the
source for real snowflakes, so the SHARD_MISCALCULATION branch cannot fire.
Note the membership predicate indexes `shardList[shardList.length]`, one past
the end: that read yields `undefined` in JavaScript. -/
def clusterIdForGuildId (guildId clusterCount shardCount : Nat) :
    Except ClientUtilError Nat :=
  let shard := (guildId / 2 ^ 22) % shardCount
  match findIndexJs
      (fun shardList =>
        jsLtUndef (shardList.get? 0) shard && jsGtUndef (shardList.get? shardList.length) shard)
      (chunk (List.range shardCount) clusterCount) with
  | some cluster => .ok cluster
  | none => .error ClientUtilError.clusterMiscalculation

/-! ## Cluster (src/sharding/Cluster.js)

One `Cluster` owns at most one child (a `ChildProcess` when the manager's
mode is `'process'`, a cluster-module `Worker` when it is `'worker'`), a
`ready` flag, and the two pending-call tables `_evals` and `_fetches`
(promises keyed by the literal script / property string).  Handles to the
outside world (fork, kill, listener management, IPC sends, event emissions)
are recorded as an effect trace. -/

inductive ClusterMode : Type
  | process
  | worker
deriving DecidableEq

structure ClusterState : Type where
  id : Nat
  shards : List Nat
  managerRef : Nat                 -- opaque reference to `this.manager`
  env : List (String × String)     -- `this.env`, an opaque key-value bag here
  mode : ClusterMode               -- `this.manager.mode`
  ready : Bool
  hasProcess : Bool                -- `this.process !== null`
  hasWorker : Bool                 -- `this.worker !== null`
  evals : List (String × Nat)      -- `this._evals`: script ↦ pending promise
  fetches : List (String × Nat)    -- `this._fetches`: prop ↦ pending promise
deriving DecidableEq

inductive Effect : Type
  | removeExitListener         -- child.removeListener('exit', this._exitListener)
  | killChild                  -- child.kill()
  | forkChild                  -- childProcess.fork(...) / worker.fork(...)
  | emitSpawn                  -- this.emit('spawn', child)
  | emitDeath                  -- this.emit('death', ...)
  | respawnChild               -- the `this.spawn().catch(...)` inside _handleExit
  | sendEval (script : String) -- this.send({ _eval })
  | sendFetch (prop : String)  -- this.send({ _fetchProp: prop })
deriving DecidableEq

inductive ClusterError : Type
  | processExists (id : Nat)  -- Error CLUSTER_PROCESS_EXISTS
  | workerExists (id : Nat)   -- Error CLUSTER_WORKER_EXISTS
  | noChildExists (id : Nat)  -- Error CLUSTER_NO_CHILD_EXISTS
deriving DecidableEq

/-- How `Cluster.spawn` returns: the raw child handle (fire-and-forget) or the
promise that awaits `ready` / `disconnect` / `death` / the timeout timer. -/
inductive SpawnOutcome : Type
  | rawChild
  | readyPromise
deriving DecidableEq

/-- A JavaScript number as passed for `timeout`: an integer or an infinity. -/
inductive JsNum : Type
  | int (n : Int)
  | posInf
  | negInf
deriving DecidableEq

/-- Embedding of `Cluster.spawn(timeout)`: throws if a child already
exists; otherwise forks (per mode), clears both pending-call tables, emits
`spawn`, and returns the raw child exactly when `timeout === -1 || timeout
=== Infinity`, else a readiness-awaiting promise. -/
def spawnCluster (s : ClusterState) (timeout : JsNum) :
    Except ClusterError (SpawnOutcome × ClusterState × List Effect) :=
  if s.hasProcess then .error (ClusterError.processExists s.id)
  else if s.hasWorker then .error (ClusterError.workerExists s.id)
  else
    let s' : ClusterState :=
      { s with
        hasProcess := s.mode = ClusterMode.process
        hasWorker := s.mode = ClusterMode.worker
        evals := []
        fetches := [] }
    let effs := [Effect.forkChild, Effect.emitSpawn]
    if timeout = JsNum.int (-1) ∨ timeout = JsNum.posInf then
      .ok (SpawnOutcome.rawChild, s', effs)
    else
      .ok (SpawnOutcome.readyPromise, s', effs)

/-- Embedding of `Cluster._handleExit(respawn)`: emit `death`, clear
`ready`, the child handles and both pending-call tables, then spawn again only
when `respawn` is truthy. -/
def handleExit (s : ClusterState) (respawn : Bool) : ClusterState × List Effect :=
  ({ s with
      ready := false
      hasProcess := false
      hasWorker := false
      evals := []
      fetches := [] },
   Effect.emitDeath :: if respawn then [Effect.respawnChild] else [])

/-- Embedding of `Cluster.kill()`: `const child = this.process ??
this.worker;` — when both are `null`, `child.removeListener(...)` dereferences
`null` and throws a `TypeError`; otherwise detach the exit listener, kill the
child and run `_handleExit(false)` synchronously. -/
def kill (s : ClusterState) : Except JsErr (ClusterState × List Effect) :=
  if s.hasProcess || s.hasWorker then
    let (s', effs) := handleExit s false
    .ok (s', Effect.removeExitListener :: Effect.killChild :: effs)
  else .error JsErr.typeError

/-- Result of a correlated call (`eval` / `fetchClientValue`): an immediately
rejected promise, or the pending promise identified by the id under which it
was (or already was) stored in the call table. -/
inductive CallResult : Type
  | rejected (e : ClusterError)
  | pending (promiseId : Nat)
deriving DecidableEq

/-- Embedding of `Cluster.eval(script)`: reject with
CLUSTER_NO_CHILD_EXISTS when no child is running; return the cached promise
when `_evals` already holds `script`; otherwise register a fresh promise
(`freshId`), send `{ _eval }`, and store it under `script`. -/
def evalCluster (s : ClusterState) (script : String) (freshId : Nat) :
    CallResult × ClusterState × List Effect :=
  if !s.hasProcess && !s.hasWorker then
    (CallResult.rejected (ClusterError.noChildExists s.id), s, [])
  else
    match s.evals.lookup script with
    | some p => (CallResult.pending p, s, [])
    | none =>
      (CallResult.pending freshId,
       { s with evals := (script, freshId) :: s.evals },
       [Effect.sendEval script])

/-- Embedding of `Cluster.fetchClientValue(prop)`: same structure as
`eval`, over `_fetches` and `{ _fetchProp: prop }`. -/
def fetchClientValue (s : ClusterState) (prop : String) (freshId : Nat) :
    CallResult × ClusterState × List Effect :=
  if !s.hasProcess && !s.hasWorker then
    (CallResult.rejected (ClusterError.noChildExists s.id), s, [])
  else
    match s.fetches.lookup prop with
    | some p => (CallResult.pending p, s, [])
    | none =>
      (CallResult.pending freshId,
       { s with fetches := (prop, freshId) :: s.fetches },
       [Effect.sendFetch prop])

/-- A live sample cluster (child process attached), shared by the concrete
witnesses below. -/
def sampleLive : ClusterState :=
  { id := 0
    shards := [0, 1]
    managerRef := 7
    env := [("SHARD_COUNT", "2")]
    mode := ClusterMode.process
    ready := true
    hasProcess := true
    hasWorker := false
    evals := []
    fetches := [] }

/-- A sample cluster with no child process and no worker, shared by the
concrete witnesses below. -/
def sampleDead : ClusterState :=
  { sampleLive with ready := false, hasProcess := false, hasWorker := false }

/-- Projection used to state counterexamples: the `SpawnOutcome` of a
successful `Cluster.spawn`. -/
def spawnOutcomeOf (r : Except ClusterError (SpawnOutcome × ClusterState × List Effect)) :
    Option SpawnOutcome :=
  r.toOption.map (·.1)

/-! ## Claims -/

/-- C1 (counterexample): at `shardCount = 16`, `workerCount = 7`, `Util.chunk`
splits `[0, 16)` into 6 groups — not exactly 7 — and the group sizes
`3,3,3,3,3,1` differ by more than 1, refuting the claim at that input. -/
theorem C1_chunk_cex :
    chunk (List.range 16) 7 =
      [[0, 1, 2], [3, 4, 5], [6, 7, 8], [9, 10, 11], [12, 13, 14], [15]] ∧
    (chunk (List.range 16) 7).length ≠ 7 := by decide

/-- C1 (amended): for `shardCount ≥ workerCount > 0`, `Util.chunk` on the
identity list `[0, shardCount)` with the worker count as second argument
produces non-empty groups, each of size at most `⌈shardCount/workerCount⌉`,
whose in-order concatenation equals `[0, shardCount)`; there are exactly
`⌈shardCount / ⌈shardCount/workerCount⌉⌉` of them, which is at most — but not
always exactly — `workerCount`. -/
theorem C1_chunk_partition (s w : Nat) (hw : 0 < w) (hsw : w ≤ s) :
    (chunk (List.range s) w).flatten = List.range s ∧
    (∀ l ∈ chunk (List.range s) w, l ≠ []) ∧
    (∀ l ∈ chunk (List.range s) w, l.length ≤ ceilDivJs s w) ∧
    (chunk (List.range s) w).length = ceilDivJs s (ceilDivJs s w) ∧
    (chunk (List.range s) w).length ≤ w := by
  have hs : 1 ≤ s := le_trans hw hsw
  have hc : 1 ≤ ceilDivJs s w := one_le_ceilDivJs s w hw hs
  have hlr : (List.range s).length = s := List.length_range s
  have hfuel : (List.range s).length ≤ s := le_of_eq hlr
  have hchunk : chunk (List.range s) w = chunkGo s (ceilDivJs s w) (List.range s) := by
    unfold chunk
    rw [hlr]
  have hlength : (chunkGo s (ceilDivJs s w) (List.range s)).length =
      ceilDivJs s (ceilDivJs s w) := by
    have h := chunkGo_length (ceilDivJs s w) hc s (List.range s) hfuel
    rw [hlr] at h
    exact h
  refine ⟨?_, ?_, ?_, ?_, ?_⟩
  · rw [hchunk]
    exact chunkGo_join _ hc _ _ hfuel
  · rw [hchunk]
    exact chunkGo_ne_nil _ hc _ _
  · rw [hchunk]
    exact chunkGo_mem_length_le _ _ _
  · rw [hchunk, hlength]
  · rw [hchunk, hlength]
    exact ceilDivJs_le_of_le_mul s _ w hc (le_mul_ceilDivJs s w hw)

/-- C1 (witness): the amended statement instantiated at `shardCount = 4`,
`workerCount = 3`. -/
theorem C1_chunk_partition_witness :
    (chunk (List.range 4) 3).flatten = List.range 4 ∧
    (∀ l ∈ chunk (List.range 4) 3, l ≠ []) ∧
    (∀ l ∈ chunk (List.range 4) 3, l.length ≤ ceilDivJs 4 3) ∧
    (chunk (List.range 4) 3).length = ceilDivJs 4 (ceilDivJs 4 3) ∧
    (chunk (List.range 4) 3).length ≤ 3 :=
  C1_chunk_partition 4 3 (by decide) (by decide)

/-- C2: the membership test inside `clusterIdForGuildId` reads
`shardList[shardList.length]`, one past the end of the chunk, which is
`undefined`; `undefined > shard` is `false`, so `findIndex` never matches and
the function always throws CLUSTER_CLUSTER_MISCALCULATION instead of
returning the containing chunk's index. -/
theorem C2_router_always_throws (guildId clusterCount shardCount : Nat)
    (_hcc : 0 < clusterCount) (_hsc : 0 < shardCount) (_hccsc : clusterCount ≤ shardCount) :
    clusterIdForGuildId guildId clusterCount shardCount =
      Except.error ClientUtilError.clusterMiscalculation := by
  have hfind :
      findIndexJs
        (fun shardList =>
          jsLtUndef (shardList.get? 0) ((guildId / 2 ^ 22) % shardCount) &&
            jsGtUndef (shardList.get? shardList.length) ((guildId / 2 ^ 22) % shardCount))
        (chunk (List.range shardCount) clusterCount) = none := by
    apply findIndexJs_eq_none
    intro l _
    have hnone : l.get? l.length = none := by
      rw [List.get?_eq_none]
    rw [hnone]
    simp [jsGtUndef]
  simp only [clusterIdForGuildId, hfind]

/-- C2 (witness): the router throws at `guildId = 123456789012345678`,
`clusterCount = 2`, `shardCount = 4`. -/
theorem C2_router_always_throws_witness :
    clusterIdForGuildId 123456789012345678 2 4 =
      Except.error ClientUtilError.clusterMiscalculation :=
  C2_router_always_throws 123456789012345678 2 4 (by decide) (by decide) (by decide)

/-- C3 (counterexample): `spawn` with `shards = 4`, `clusters = 3` does not
assign `[0,1]`, `[2]`, `[3]` to three clusters. -/
theorem C3_partition_cex :
    spawnPartition [] 4 3 ≠ Except.ok [(0, [0, 1]), (1, [2]), (2, [3])] := by decide

/-- C3 (amended): `spawn` with `shards = 4`, `clusters = 3` chunks the shard
list into two groups of size 2, capping the cluster count at 2: cluster 0 gets
shards `[0, 1]` and cluster 1 gets shards `[2, 3]`. -/
theorem C3_partition_4_3 :
    spawnPartition [] 4 3 = Except.ok [(0, [0, 1]), (1, [2, 3])] := by decide

/-- C4: a second `ClusterManager.spawn` call (non-empty cluster collection)
does not fail with SHARDING_ALREADY_SPAWNED / CLUSTER_ALREADY_SPAWNED: the
shard-size reduce callback `cluster => cluster.shards.length` is applied to
the numeric accumulator `0`, and `(0).shards.length` throws a `TypeError`
before either AlreadySpawned check is reached. -/
theorem C4_second_spawn_typeerror (existing : List (List Nat)) (shards clusters : Nat)
    (hne : existing ≠ []) (hsh : 1 ≤ shards) :
    spawnPartition existing shards clusters = Except.error MgrError.typeError := by
  obtain ⟨e, es, rfl⟩ := List.exists_cons_of_ne_nil hne
  have hred : collectionReduceShards (e :: es) = Except.error JsErr.typeError := rfl
  unfold spawnPartition
  rw [if_neg (by omega), hred]

/-- C4 (witness): the second spawn after a one-cluster, one-shard first spawn
throws the `TypeError`. -/
theorem C4_second_spawn_typeerror_witness :
    spawnPartition [[0]] 1 1 = Except.error MgrError.typeError :=
  C4_second_spawn_typeerror [[0]] 1 1 (by decide) (by decide)

/-- C5: while an `eval` with the same script key is pending, `Cluster.eval`
sends exactly one outbound `_eval` message: the first call registers and sends,
the second call returns the identical pending promise, sends nothing and
leaves the state unchanged. -/
theorem C5_eval_dedup (s : ClusterState) (script : String) (f g : Nat)
    (hc : s.hasProcess = true ∨ s.hasWorker = true)
    (hnone : s.evals.lookup script = none) :
    ∃ s', evalCluster s script f =
        (CallResult.pending f, s', [Effect.sendEval script]) ∧
      evalCluster s' script g = (CallResult.pending f, s', []) ∧
      s'.evals.lookup script = some f := by
  have hcb : (!s.hasProcess && !s.hasWorker) = false := by
    rcases hc with h | h <;> simp [h]
  refine ⟨{ s with evals := (script, f) :: s.evals }, ?_, ?_, ?_⟩
  · simp only [evalCluster, hcb, Bool.false_eq_true, if_false, hnone]
  · simp only [evalCluster, hcb, Bool.false_eq_true, if_false, List.lookup, beq_self_eq_true,
      if_true]
  · simp only [List.lookup, beq_self_eq_true, if_true]

/-- C5 (witness): the dedup behaviour on a live sample cluster with script
`"x"`. -/
theorem C5_eval_dedup_witness :
    ∃ s', evalCluster sampleLive "x" 1 =
        (CallResult.pending 1, s', [Effect.sendEval "x"]) ∧
      evalCluster s' "x" 2 = (CallResult.pending 1, s', []) ∧
      s'.evals.lookup "x" = some 1 :=
  C5_eval_dedup sampleLive "x" 1 2 (Or.inl rfl) rfl

/-- C6 (counterexample): `Cluster.spawn(0)` — a non-positive timeout — does
not return the raw child handle; it enters the readiness-awaiting promise
branch (only `-1` and `Infinity` short-circuit). -/
theorem C6_spawn_cex :
    spawnOutcomeOf (spawnCluster sampleDead (JsNum.int 0)) = some SpawnOutcome.readyPromise ∧
    spawnOutcomeOf (spawnCluster sampleDead (JsNum.int 0)) ≠ some SpawnOutcome.rawChild := by
  decide

/-- C6 (amended): on a cluster with no child, `Cluster.spawn(timeout)` returns
the raw child handle (fire-and-forget) exactly when `timeout === -1` or
`timeout === Infinity`; every other value — including `0`, other negative
numbers and `-Infinity` — yields the readiness-awaiting pending result. -/
theorem C6_spawn_branch (s : ClusterState) (t : JsNum)
    (hp : s.hasProcess = false) (hw : s.hasWorker = false) :
    (spawnOutcomeOf (spawnCluster s t) = some SpawnOutcome.rawChild ↔
      (t = JsNum.int (-1) ∨ t = JsNum.posInf)) := by
  by_cases hc : t = JsNum.int (-1) ∨ t = JsNum.posInf
  · simp [spawnCluster, spawnOutcomeOf, hp, hw, hc, Except.toOption]
  · simp [spawnCluster, spawnOutcomeOf, hp, hw, hc, Except.toOption]

/-- C6 (witness): the amended statement at `timeout = -1` on the dead sample
cluster. -/
theorem C6_spawn_branch_witness :
    spawnOutcomeOf (spawnCluster sampleDead (JsNum.int (-1))) = some SpawnOutcome.rawChild ↔
      (JsNum.int (-1) = JsNum.int (-1) ∨ JsNum.int (-1) = JsNum.posInf) :=
  C6_spawn_branch sampleDead (JsNum.int (-1)) rfl rfl

/-- C7 (counterexample): on an empty pool with a numeric target id,
`_performOnClusters` rejects with CLUSTER_NO_CLUSTERS — the empty-pool check
runs first — not with the claimed CLUSTER_CLUSTER_NOT_FOUND. -/
theorem C7_perform_cex :
    performOnClusters [] 0 (some 3) = Except.error MgrError.noClusters ∧
    performOnClusters [] 0 (some 3) ≠ Except.error (MgrError.clusterNotFound 3) := by
  decide

/-- C7 (amended): on a non-empty pool, a numeric target id is delegated
directly to that cluster when present and rejected with
CLUSTER_CLUSTER_NOT_FOUND when absent; an empty pool instead rejects with
CLUSTER_NO_CLUSTERS before the target is consulted. -/
theorem C7_perform_targeted (ids : List Nat) (clusterListLen : Nat) (c : Nat)
    (hne : ids ≠ []) :
    (c ∈ ids → performOnClusters ids clusterListLen (some c) =
        Except.ok (Dispatch.delegate c)) ∧
    (c ∉ ids → performOnClusters ids clusterListLen (some c) =
        Except.error (MgrError.clusterNotFound c)) := by
  have hlen : ids.length ≠ 0 := fun h => hne (List.eq_nil_of_length_eq_zero h)
  constructor <;> intro hm <;> simp [performOnClusters, hlen, hm]

/-- C7 (witness): delegation at a present id and CLUSTER_CLUSTER_NOT_FOUND at
an absent id, on the pool `{0, 1}`. -/
theorem C7_perform_targeted_witness :
    performOnClusters [0, 1] 2 (some 0) = Except.ok (Dispatch.delegate 0) ∧
    performOnClusters [0, 1] 2 (some 5) = Except.error (MgrError.clusterNotFound 5) :=
  ⟨(C7_perform_targeted [0, 1] 2 0 (by decide)).1 (by decide),
   (C7_perform_targeted [0, 1] 2 5 (by decide)).2 (by decide)⟩

/-- C8: when a cluster has neither a child process nor a worker, both
`eval(script)` and `fetchClientValue(prop)` reject immediately with
CLUSTER_NO_CHILD_EXISTS, send no message and leave the state (including both
pending-call tables) untouched. -/
theorem C8_nochild_rejects (s : ClusterState) (script prop : String) (f g : Nat)
    (hp : s.hasProcess = false) (hw : s.hasWorker = false) :
    evalCluster s script f =
      (CallResult.rejected (ClusterError.noChildExists s.id), s, []) ∧
    fetchClientValue s prop g =
      (CallResult.rejected (ClusterError.noChildExists s.id), s, []) := by
  constructor <;> simp [evalCluster, fetchClientValue, hp, hw]

/-- C8 (witness): both calls reject on the dead sample cluster. -/
theorem C8_nochild_rejects_witness :
    evalCluster sampleDead "x" 1 =
      (CallResult.rejected (ClusterError.noChildExists sampleDead.id), sampleDead, []) ∧
    fetchClientValue sampleDead "guilds" 2 =
      (CallResult.rejected (ClusterError.noChildExists sampleDead.id), sampleDead, []) :=
  C8_nochild_rejects sampleDead "x" "guilds" 1 2 rfl rfl

/-- C9: `kill()` on a cluster with a live child succeeds, and afterwards the
ready flag is cleared, both child handles are null, both pending-call tables
are empty, no respawn is triggered (the exit listener was detached and
`_handleExit(false)` was used), and the remaining fields — id, shards,
manager, env, mode — are unchanged. -/
theorem C9_kill_cleanup (s : ClusterState)
    (hc : s.hasProcess = true ∨ s.hasWorker = true) :
    ∃ s' effs, kill s = Except.ok (s', effs) ∧
      s'.ready = false ∧ s'.hasProcess = false ∧ s'.hasWorker = false ∧
      s'.evals = [] ∧ s'.fetches = [] ∧
      Effect.respawnChild ∉ effs ∧
      s'.id = s.id ∧ s'.shards = s.shards ∧ s'.managerRef = s.managerRef ∧
      s'.env = s.env ∧ s'.mode = s.mode := by
  have hcb : (s.hasProcess || s.hasWorker) = true := by
    rcases hc with h | h <;> simp [h]
  refine ⟨{ s with ready := false, hasProcess := false, hasWorker := false, evals := [], fetches := [] }, [Effect.removeExitListener, Effect.killChild, Effect.emitDeath], ?_, rfl, rfl, rfl, rfl, rfl, by decide, rfl, rfl, rfl, rfl, rfl⟩
  simp [kill, handleExit, hcb]

/-- C9 (witness): the cleanup on the live sample cluster. -/
theorem C9_kill_cleanup_witness :
    ∃ s' effs, kill sampleLive = Except.ok (s', effs) ∧
      s'.ready = false ∧ s'.hasProcess = false ∧ s'.hasWorker = false ∧
      s'.evals = [] ∧ s'.fetches = [] ∧
      Effect.respawnChild ∉ effs ∧
      s'.id = sampleLive.id ∧ s'.shards = sampleLive.shards ∧
      s'.managerRef = sampleLive.managerRef ∧
      s'.env = sampleLive.env ∧ s'.mode = sampleLive.mode :=
  C9_kill_cleanup sampleLive (Or.inl rfl)

/-- C10: `kill()` has the unstated precondition that a child exists — with
both handles null, `this.process ?? this.worker` is `null` and
`child.removeListener` throws a `TypeError`; with a child present the call
succeeds (the `TypeError` branch is unreachable). -/
theorem C10_kill_requires_child (s : ClusterState) :
    (s.hasProcess = false → s.hasWorker = false → kill s = Except.error JsErr.typeError) ∧
    ((s.hasProcess = true ∨ s.hasWorker = true) → ∃ r, kill s = Except.ok r) := by
  constructor
  · intro hp hw
    simp [kill, hp, hw]
  · intro hc
    have hcb : (s.hasProcess || s.hasWorker) = true := by
      rcases hc with h | h <;> simp [h]
    refine ⟨((handleExit s false).1,
        Effect.removeExitListener :: Effect.killChild :: (handleExit s false).2), ?_⟩
    simp [kill, handleExit, hcb]

/-- C10 (witness): `kill` throws on the dead sample cluster and succeeds on
the live one. -/
theorem C10_kill_requires_child_witness :
    kill sampleDead = Except.error JsErr.typeError ∧ ∃ r, kill sampleLive = Except.ok r :=
  ⟨(C10_kill_requires_child sampleDead).1 rfl rfl,
   (C10_kill_requires_child sampleLive).2 (Or.inl rfl)⟩

end DJSCluster
